import Mathlib

/-!
Verification of the notiq monitoring core against its specification.

The Python modules under src/notiq are shallowly embedded: pure helpers
become Lean functions, the process-wide mutable registries (Prometheus
collector registry, logging handler state, metric counters) become explicit
state records threaded through the functions, and exceptions become
`Except`.  External collaborators (the Prometheus client library, pydantic
validation, the file system and the clock) are modelled at their boundary:
the registry as a name-indexed map with register-or-fail construction, the
file system as an outcome oracle, pydantic as a validation predicate
parameter, and elapsed time as an explicit duration argument.
-/

namespace Notiq

/-! ### Embedding of src/notiq/monitoring/validation.py -/

/-- Character class [a-zA-Z_] (the first character of VALID_NAME_PATTERN). -/
def isNameStartChar (c : Char) : Bool := c.isAlpha || c == '_'

/-- Character class [a-zA-Z0-9_] (the tail characters of VALID_NAME_PATTERN). -/
def isNameBodyChar (c : Char) : Bool := c.isAlphanum || c == '_'

/-- Anchored match of the regex body [a-zA-Z_][a-zA-Z0-9_]{0,63} against a
whole character sequence: nonempty, head in [a-zA-Z_], tail in [a-zA-Z0-9_],
total length at most 64. -/
def coreNameMatch : List Char → Bool
  | [] => false
  | c :: rest => isNameStartChar c && rest.all isNameBodyChar && decide (rest.length ≤ 63)

/-- Embeds Python `VALID_NAME_PATTERN.match(s)` for the compiled pattern
"^[a-zA-Z_][a-zA-Z0-9_]{0,63}$".  In Python's `re`, `$` (without re.MULTILINE)
matches at the end of the string or just before one newline at the very end
of the string, so the pattern accepts both an exact match of the regex body
and a match of the body followed by a single trailing "\n". -/
def VALID_NAME_PATTERN_matches (s : String) : Bool :=
  coreNameMatch s.data ||
    (match s.data.getLast? with
     | some c => c == '\n' && coreNameMatch s.data.dropLast
     | none => false)

/-- Embeds `validate_metric_name`: returns the name unchanged when the
pattern matches, otherwise fails (the Python code raises ValueError, the
spec's InvalidName). -/
def validate_metric_name (name : String) : Except String String :=
  if VALID_NAME_PATTERN_matches name then Except.ok name
  else Except.error ("Invalid metric_name " ++ name ++
    ". Must be 1-64 characters, start with [a-zA-Z_], and contain only [a-zA-Z0-9_].")

/-- Split a character sequence at every '/' (groups may be empty). -/
def splitOnSlash : List Char → List (List Char)
  | [] => [[]]
  | c :: cs =>
    match splitOnSlash cs with
    | [] => [[]]
    | g :: gs => if c == '/' then [] :: g :: gs else (c :: g) :: gs

/-- Embeds `pathlib.Path(name).name` on a POSIX host: split the string on
'/', drop empty components and "." components (pathlib's parser removes
both), and return the final component, or the empty string when none is
left (root, ".", or the empty path). -/
def posixPathName (cs : List Char) : List Char :=
  ((splitOnSlash cs).filter (fun g => !g.isEmpty && g != ['.'])).getLastD []

/-- Embeds Python's regex class `\w` for str patterns, which is
Unicode-aware: ASCII letters, digits and the underscore, plus every other
character that `str.isalnum` accepts.  This embedding is exact for all code
points up to U+00FF (the Latin-1 word characters are ª ² ³ µ ¹ º ¼ ½ ¾ and
the letters U+00C0–U+00FF except × and ÷); code points above U+00FF are
treated as non-word characters here. -/
def pyIsWordChar (c : Char) : Bool :=
  c.isAlphanum || c == '_' ||
    (c.toNat == 0xAA || c.toNat == 0xB2 || c.toNat == 0xB3 || c.toNat == 0xB5 ||
     c.toNat == 0xB9 || c.toNat == 0xBA || c.toNat == 0xBC || c.toNat == 0xBD ||
     c.toNat == 0xBE ||
     (decide (0xC0 ≤ c.toNat) && decide (c.toNat ≤ 0xFF) &&
      c.toNat != 0xD7 && c.toNat != 0xF7))

/-- Embeds `sanitize_log_filename`: strip directory components with
`Path(name).name`, replace every character outside the regex class
[\w\-.] by '_' (the re.sub call), and fall back to "default" when the
result is empty. -/
def sanitize_log_filename (name : String) : String :=
  let safe := (posixPathName name.data).map
    (fun c => if pyIsWordChar c || c == '-' || c == '.' then c else '_')
  if safe.isEmpty then "default" else String.mk safe

/-! ### Embedding of src/notiq/monitoring/builder.py

The Prometheus client library is external; it is modelled at its boundary:
a `CollectorRegistry` carries the `_names_to_collectors` index the builder
consults, plus a counter used to give each newly constructed collector a
fresh identity (so that "identical handle instance" is expressible).
Constructing a metric registers it under its full name and fails (the
library raises ValueError) when the name is already taken.  Histogram
bucket boundaries play no role in any claim and are not modelled. -/

inductive MetricKind
  | counter
  | gauge
  | histogram
  | summary
deriving DecidableEq

structure MetricHandle where
  id : Nat
  kind : MetricKind
  fullName : String
deriving DecidableEq

structure CollectorRegistry where
  names_to_collectors : List (String × MetricHandle)
  nextId : Nat
deriving DecidableEq

structure MetricBuilder where
  name : String
  documentation : String
  labelnames : List String
  namespace' : String
  subsystem : String
  unit : String
deriving DecidableEq

/-- Embeds `MetricBuilder._get_full_name`: join namespace, subsystem and
name with '_', dropping empty segments. -/
def MetricBuilder._get_full_name (b : MetricBuilder) : String :=
  "_".intercalate (([b.namespace', b.subsystem, b.name]).filter (fun p => !(p == "")))

/-- Lookup in the registry's `_names_to_collectors` index. -/
def lookupCollector (reg : CollectorRegistry) (n : String) : Option MetricHandle :=
  ((reg.names_to_collectors).find? (fun p => p.1 == n)).map (fun p => p.2)

/-- Boundary model of `metric_cls(**kwargs)`: the collector registers itself
on construction, atomically; a duplicate name raises ValueError. -/
def constructMetric (kind : MetricKind) (full : String) (reg : CollectorRegistry) :
    Except Unit (MetricHandle × CollectorRegistry) :=
  if (lookupCollector reg full).isSome then Except.error ()
  else
    let h : MetricHandle := ⟨reg.nextId, kind, full⟩
    Except.ok (h, ⟨reg.names_to_collectors ++ [(full, h)], reg.nextId + 1⟩)

/-- Embeds `MetricBuilder._get_or_create`: return the collector already
indexed under the full name if any (whatever its kind); otherwise construct
one, and on a duplicate-registration ValueError re-query the index (the
`.get` there can yield None, which the Python `cast` hides — hence the
`Option` result). -/
def MetricBuilder._get_or_create (b : MetricBuilder) (kind : MetricKind)
    (reg : CollectorRegistry) : Option MetricHandle × CollectorRegistry :=
  match lookupCollector reg b._get_full_name with
  | some h => (some h, reg)
  | none =>
    match constructMetric kind b._get_full_name reg with
    | Except.ok (h, reg') => (some h, reg')
    | Except.error _ => (lookupCollector reg b._get_full_name, reg)

def MetricBuilder.counter (b : MetricBuilder) (reg : CollectorRegistry) :
    Option MetricHandle × CollectorRegistry :=
  b._get_or_create MetricKind.counter reg

def MetricBuilder.gauge (b : MetricBuilder) (reg : CollectorRegistry) :
    Option MetricHandle × CollectorRegistry :=
  b._get_or_create MetricKind.gauge reg

def MetricBuilder.histogram (b : MetricBuilder) (reg : CollectorRegistry) :
    Option MetricHandle × CollectorRegistry :=
  b._get_or_create MetricKind.histogram reg

def MetricBuilder.summary (b : MetricBuilder) (reg : CollectorRegistry) :
    Option MetricHandle × CollectorRegistry :=
  b._get_or_create MetricKind.summary reg

/-! ### Embedding of src/notiq/monitoring/loggers.py

The Python logging backend's handler list for a named logger, the process
stderr stream, and the logger's propagate flag form the state.  File-system
effects (mkdir and RotatingFileHandler creation) are external and modelled
as an outcome oracle: success, PermissionError, or OSError.  The detection
`isinstance(h, StreamHandler) and not isinstance(h, RotatingFileHandler)`
versus `isinstance(h, RotatingFileHandler)` becomes the two handler kinds.
`setup` runs `_setup_handlers` under the module-wide `_setup_lock`, so
concurrent calls are serialized; the embedding is that serialization. -/

inductive Handler
  | console
  | file
deriving DecidableEq

inductive FsOutcome
  | ok
  | permissionDenied
  | osError
deriving DecidableEq

structure LoggerState where
  handlers : List Handler
  propagate : Bool
  stderr : List String
deriving DecidableEq

def hasConsoleHandler (hs : List Handler) : Bool := hs.contains Handler.console

def hasFileHandler (hs : List Handler) : Bool := hs.contains Handler.file

structure Logger where
  logger_name : String
  file_output : Bool
  json_serialize : Bool
deriving DecidableEq

/-- Embeds `Logger._setup_file_handler`: on success attach the rotating
file handler; a PermissionError or OSError is caught and turned into a
diagnostic line on stderr, attaching nothing. -/
def Logger._setup_file_handler (lg : Logger) (fs : FsOutcome) (st : LoggerState) :
    LoggerState :=
  match fs with
  | FsOutcome.ok => { st with handlers := st.handlers ++ [Handler.file] }
  | FsOutcome.permissionDenied =>
      { st with stderr := st.stderr ++
        ["[Logger] Permission denied creating log file for " ++ lg.logger_name ++
         ". File logging disabled."] }
  | FsOutcome.osError =>
      { st with stderr := st.stderr ++
        ["[Logger] Failed to create file handler for " ++ lg.logger_name ++
         ". File logging disabled."] }

/-- The console-handler step of `_setup_handlers`: attach a console
handler unless one is already present. -/
def consoleStep (st : LoggerState) : LoggerState :=
  if hasConsoleHandler st.handlers then st
  else { st with handlers := st.handlers ++ [Handler.console] }

/-- The final step of `_setup_handlers`: `self.logger.propagate = False`. -/
def setPropagateFalse (st : LoggerState) : LoggerState := { st with propagate := false }

/-- Embeds `Logger._setup_handlers`: detect existing handlers by kind (on
the state as found at entry), attach a console handler when absent, attach
the file handler when file output is requested and absent, and disable
propagation. -/
def Logger._setup_handlers (lg : Logger) (fs : FsOutcome) (st : LoggerState) :
    LoggerState :=
  setPropagateFalse
    (if lg.file_output && !hasFileHandler st.handlers
     then Logger._setup_file_handler lg fs (consoleStep st)
     else consoleStep st)

/-- Embeds `Logger.setup`: `_setup_handlers` under `_setup_lock`. -/
def Logger.setup (lg : Logger) (fs : FsOutcome) (st : LoggerState) : LoggerState :=
  Logger._setup_handlers lg fs st

/-- A fresh Python logger: no handlers, propagate defaults to True. -/
def freshLoggerState : LoggerState := ⟨[], true, []⟩

/-! ### Embedding of src/notiq/monitoring/decorators.py (and metrics.py)

The two module-level metrics REQUEST_COUNT (counter labelled by
function_name and status) and REQUEST_LATENCY (histogram labelled by
function_name) become a state record: per-label counter values and
per-label observation lists, together with the log lines emitted through
the decorator's logger.  The clock is external, so the elapsed
perf_counter duration measured by the wrapper is an explicit argument.
The wrapped call itself is summarized by its outcome: for the sync
wrapper a normal return or an exception caught by `except Exception`;
for the async wrapper additionally `asyncio.CancelledError`. -/

inductive LogLevel
  | info
  | error
deriving DecidableEq

structure MonState where
  count : String → String → Nat
  latency : String → List Nat
  logs : List (LogLevel × String)

/-- `REQUEST_COUNT.labels(function_name=name, status=status).inc()`. -/
def incCount (name status : String) (s : MonState) : MonState :=
  { s with count := fun n st =>
      if n == name && st == status then s.count n st + 1 else s.count n st }

/-- `REQUEST_LATENCY.labels(function_name=name).observe(d)`. -/
def observeLatency (name : String) (d : Nat) (s : MonState) : MonState :=
  { s with latency := fun n => if n == name then s.latency n ++ [d] else s.latency n }

def addLog (lvl : LogLevel) (msg : String) (s : MonState) : MonState :=
  { s with logs := s.logs ++ [(lvl, msg)] }

/-- Outcome of awaiting the wrapped coroutine: a value, an
`asyncio.CancelledError`, or an exception caught by `except Exception`. -/
inductive CallResult (ε β : Type) where
  | success (v : β)
  | cancelled
  | error (e : ε)
deriving DecidableEq

def initMonState : MonState := ⟨fun _ _ => 0, fun _ => [], []⟩

/-- Embeds the sync `wrapper` of `monitor`: log start (when log_calls),
run the function; on return log success, increment the success counter and
return the value; on an exception log it at error level, increment the
error counter and re-raise; in both cases the `finally` block observes the
elapsed duration on the latency histogram. -/
def wrapper {ε β : Type} (metric_name : String) (log_calls : Bool) (dur : Nat)
    (fres : Except ε β) (s : MonState) : Except ε β × MonState :=
  match fres with
  | Except.ok v =>
    let s := if log_calls then addLog LogLevel.info "started func execution" s else s
    let s := if log_calls then addLog LogLevel.info "func successfully ran" s else s
    let s := incCount metric_name "success" s
    let s := observeLatency metric_name dur s
    (Except.ok v, s)
  | Except.error e =>
    let s := if log_calls then addLog LogLevel.info "started func execution" s else s
    let s := addLog LogLevel.error "error occurred" s
    let s := incCount metric_name "error" s
    let s := observeLatency metric_name dur s
    (Except.error e, s)

/-- Embeds the `async_wrapper` of `monitor`: as the sync wrapper, with a
dedicated `except asyncio.CancelledError` arm that logs "task cancelled"
at info level, increments the cancelled counter and re-raises; the
`finally` block observes the latency on every path. -/
def async_wrapper {ε β : Type} (metric_name : String) (log_calls : Bool) (dur : Nat)
    (fres : CallResult ε β) (s : MonState) : CallResult ε β × MonState :=
  match fres with
  | CallResult.success v =>
    let s := if log_calls then addLog LogLevel.info "started func execution" s else s
    let s := if log_calls then addLog LogLevel.info "func successfully ran" s else s
    let s := incCount metric_name "success" s
    let s := observeLatency metric_name dur s
    (CallResult.success v, s)
  | CallResult.cancelled =>
    let s := if log_calls then addLog LogLevel.info "started func execution" s else s
    let s := addLog LogLevel.info "task cancelled" s
    let s := incCount metric_name "cancelled" s
    let s := observeLatency metric_name dur s
    (CallResult.cancelled, s)
  | CallResult.error e =>
    let s := if log_calls then addLog LogLevel.info "started func execution" s else s
    let s := addLog LogLevel.error "error occurred" s
    let s := incCount metric_name "error" s
    let s := observeLatency metric_name dur s
    (CallResult.error e, s)

/-- The decoration-time data of a monitor-decorated function. -/
structure Monitored where
  metric_name : String
  log_calls : Bool
deriving DecidableEq

/-- Embeds the decoration phase of `monitor`: `validate_metric_name` runs
first, so an invalid name fails the whole decoration before any wrapper is
built; a valid name yields the decorated-function data whose calls are the
`wrapper` / `async_wrapper` semantics above. -/
def monitor (metric_name : String) (log_calls : Bool) : Except String Monitored :=
  match validate_metric_name metric_name with
  | Except.error e => Except.error e
  | Except.ok n => Except.ok ⟨n, log_calls⟩

/-! ### Embedding of NotiqConfig from src/notiq/__init__.py

Pydantic URL validation is an external collaborator and is modelled as a
predicate parameter over the three supplied values.  The process
environment is the state; the source sets the three NOTIQ_* variables
first (lines 89-92) and only then runs validation, so the mutated
environment is in force on both the ok and the error outcome. -/

structure Env where
  NOTIQ_TASK_DIR : Option String
  NOTIQ_BROKER_URL : Option String
  NOTIQ_RESULT_BACKEND : Option String
deriving DecidableEq

def NotiqConfig (validates : String → String → String → Bool)
    (BROKER_URL RESULT_BACKEND task_dir : String) (_env : Env) :
    Except String Unit × Env :=
  let env' : Env := ⟨some task_dir, some BROKER_URL, some RESULT_BACKEND⟩
  if validates BROKER_URL RESULT_BACKEND task_dir then (Except.ok (), env')
  else
    (Except.error ("Invalid configuration provided: " ++ BROKER_URL ++ " " ++
      RESULT_BACKEND ++ " " ++ task_dir), env')

/-! ### Concrete instances used to exercise the theorems -/

/-- The REQUEST_COUNT builder from src/notiq/monitoring/metrics.py. -/
def requestCountBuilder : MetricBuilder :=
  ⟨"requests_total", "Total number of function calls",
   ["function_name", "status"], "notiq", "", ""⟩

def sampleHandle : MetricHandle := ⟨0, MetricKind.counter, "notiq_requests_total"⟩

def sampleRegistry : CollectorRegistry := ⟨[("notiq_requests_total", sampleHandle)], 1⟩

def sampleLogger : Logger := ⟨"payment_process", true, true⟩

/-- A logger state that is already fully configured. -/
def configuredLoggerState : LoggerState := ⟨[Handler.console, Handler.file], false, []⟩

end Notiq

namespace Notiq

/-! ### Helper lemmas about the validation embedding -/

theorem splitOnSlash_ne_nil (cs : List Char) : splitOnSlash cs ≠ [] := by
  cases cs with
  | nil => simp [splitOnSlash]
  | cons c cs =>
    simp only [splitOnSlash]
    cases h : splitOnSlash cs with
    | nil => simp
    | cons g gs =>
      by_cases hc : (c == '/') = true <;> simp [hc]

theorem no_slash_of_mem_splitOnSlash (cs : List Char) (g : List Char)
    (hg : g ∈ splitOnSlash cs) : '/' ∉ g := by
  induction cs generalizing g with
  | nil =>
    simp only [splitOnSlash, List.mem_singleton] at hg
    subst hg; simp
  | cons c cs ih =>
    simp only [splitOnSlash] at hg
    cases h : splitOnSlash cs with
    | nil => exact absurd h (splitOnSlash_ne_nil cs)
    | cons g0 gs =>
      rw [h] at hg
      by_cases hc : (c == '/') = true
      · simp only [hc, if_pos] at hg
        rcases List.mem_cons.mp hg with h1 | h1
        · subst h1; simp
        · exact ih g (by rw [h]; exact h1)
      · simp only [hc, if_neg, Bool.not_eq_true] at hg
        rcases List.mem_cons.mp hg with h1 | h1
        · subst h1
          intro hmem
          rcases List.mem_cons.mp hmem with h2 | h2
          · rw [h2] at hc; simp at hc
          · exact ih g0 (by rw [h]; exact List.mem_cons_self g0 gs) h2
        · exact ih g (by rw [h]; exact List.mem_cons.mpr (Or.inr h1))

theorem no_slash_posixPathName (cs : List Char) : '/' ∉ posixPathName cs := by
  unfold posixPathName
  cases h : ((splitOnSlash cs).filter (fun g => !g.isEmpty && g != ['.'])) with
  | nil => simp
  | cons g gs =>
    have hmem : (g :: gs).getLast (by simp) ∈ g :: gs := List.getLast_mem _
    have hsub : (g :: gs).getLast (by simp) ∈ splitOnSlash cs := by
      apply List.mem_of_mem_filter (p := fun g => !g.isEmpty && g != ['.'])
      rw [h]
      exact hmem
    rw [List.getLastD_eq_getLast?, List.getLast?_eq_getLast _ (by simp)]
    exact no_slash_of_mem_splitOnSlash cs _ hsub

/-! ### C5 and C6: the name validator -/

/-- C5: the claim states that every string violating the grammar
^[A-Za-z_][A-Za-z0-9_]{0,63}$ — in particular any string containing a
character outside letters/digits/underscore — fails with InvalidName.  The
code deviates: Python's `$` also matches just before a single trailing
newline, so validate_metric_name accepts "ab\n" and returns it unchanged,
although '\n' is outside the allowed character classes and the string does
not match the anchored regex body. -/
theorem C5_validate_metric_name_trailing_newline :
    validate_metric_name "ab\n" = Except.ok "ab\n" ∧
    coreNameMatch "ab\n".data = false ∧
    (isNameStartChar '\n' || isNameBodyChar '\n') = false :=
  ⟨rfl, by decide, by decide⟩

/-- C6 counterexample: the claim states sanitize_filename replaces every
character outside [A-Za-z0-9_.-] with '_'.  The character 'é' is outside
that class, yet sanitize_log_filename keeps it unchanged, because the
re.sub class \w is Unicode-aware. -/
theorem C6_counterexample_unicode_kept :
    sanitize_log_filename "é" = "é" ∧
    sanitize_log_filename "é" ≠ "_" ∧
    ('é'.isAlphanum || 'é' == '_' || 'é' == '.' || 'é' == '-') = false :=
  ⟨by decide, by decide, by decide⟩

/-- C6 as amended: sanitize_log_filename is total, never returns the empty
string, strips directory components, and replaces every character that is
not a Unicode word character, hyphen or dot with '_'; consequently every
character of the output lies in that safe class (or is the replacement '_')
and is never the path separator '/'. -/
theorem C6_sanitize_log_filename_safe (name : String) :
    sanitize_log_filename name ≠ "" ∧
    ((sanitize_log_filename name).data.all
      (fun c => (pyIsWordChar c || c == '-' || c == '.' || c == '_') && c != '/')) = true := by
  simp only [sanitize_log_filename]
  split
  · exact ⟨by decide, by decide⟩
  · next hne =>
    refine ⟨?_, ?_⟩
    · intro hcon
      apply hne
      have hdata := congrArg String.data hcon
      simp only [String.data] at hdata
      rw [List.isEmpty_iff]
      exact hdata
    · rw [List.all_eq_true]
      intro c hc
      simp only [String.data] at hc
      rcases List.mem_map.mp hc with ⟨b, hb, rfl⟩
      have hbslash : b ≠ '/' := by
        intro hbe
        exact no_slash_posixPathName name.data (hbe ▸ hb)
      by_cases kb : (pyIsWordChar b || b == '-' || b == '.') = true
      · rw [if_pos kb, Bool.and_eq_true]
        constructor
        · simp only [Bool.or_eq_true] at kb ⊢
          tauto
        · simpa [bne_iff_ne] using hbslash
      · rw [if_neg kb]
        decide

/-! ### C3: the metric registry builder -/

theorem lookupCollector_register (reg : CollectorRegistry) (full : String)
    (h : MetricHandle)
    (hnone : lookupCollector reg full = none) :
    lookupCollector ⟨reg.names_to_collectors ++ [(full, h)], reg.nextId + 1⟩ full
      = some h := by
  unfold lookupCollector at *
  have hfind : reg.names_to_collectors.find? (fun p => p.1 == full) = none := by
    cases hf : reg.names_to_collectors.find? (fun p => p.1 == full) with
    | none => rfl
    | some p => rw [hf] at hnone; simp at hnone
  simp only [List.find?_append, hfind, Option.none_orElse]
  simp [List.find?]

/-- C3: resolving a metric handle through the builder is idempotent: when
the composite key is already indexed, the existing handle is returned (for
any requested kind) and the registry is untouched; and after any first
resolution, a second resolution with an identical builder returns the very
same handle and leaves the registry unchanged, the first resolution having
always produced a handle. -/
theorem C3_get_or_create_idempotent (b : MetricBuilder) (k k' : MetricKind)
    (reg : CollectorRegistry) (h : MetricHandle) :
    (lookupCollector reg b._get_full_name = some h →
      b._get_or_create k reg = (some h, reg)) ∧
    ((b._get_or_create k' (b._get_or_create k reg).2).1 = (b._get_or_create k reg).1 ∧
     (b._get_or_create k' (b._get_or_create k reg).2).2 = (b._get_or_create k reg).2 ∧
     (b._get_or_create k reg).1.isSome = true) := by
  constructor
  · intro hl
    unfold MetricBuilder._get_or_create
    rw [hl]
  · cases hl : lookupCollector reg b._get_full_name with
    | some h0 =>
      simp [MetricBuilder._get_or_create, hl]
    | none =>
      have hreg' := lookupCollector_register reg b._get_full_name
        ⟨reg.nextId, k, b._get_full_name⟩ hl
      simp [MetricBuilder._get_or_create, constructMetric, hl, hreg']

/-- C3 witness: the REQUEST_COUNT builder resolved against a registry that
already indexes "notiq_requests_total" returns the existing handle even for
a histogram request, and resolving twice returns the identical handle. -/
theorem C3_witness :
    requestCountBuilder._get_or_create MetricKind.histogram sampleRegistry
        = (some sampleHandle, sampleRegistry) ∧
    (requestCountBuilder._get_or_create MetricKind.counter
        (requestCountBuilder._get_or_create MetricKind.histogram sampleRegistry).2).1
      = (requestCountBuilder._get_or_create MetricKind.histogram sampleRegistry).1 :=
  have H := C3_get_or_create_idempotent requestCountBuilder MetricKind.histogram
    MetricKind.counter sampleRegistry sampleHandle
  ⟨H.1 rfl, H.2.1⟩

/-! ### C1, C2, C9: the instrumentation decorator -/

theorem monitor_ok_elim (name : String) (lc : Bool) (m : Monitored)
    (hmon : monitor name lc = Except.ok m) : m = ⟨name, lc⟩ := by
  unfold monitor validate_metric_name at hmon
  by_cases hv : VALID_NAME_PATTERN_matches name = true
  · rw [if_pos hv] at hmon
    simp only [Except.ok.injEq] at hmon
    exact hmon.symm
  · rw [if_neg hv] at hmon
    simp at hmon

/-- C1: a monitor-decorated synchronous call that returns a value returns
exactly that value, increments the success counter labelled with the metric
name by exactly 1 (all other counter cells untouched), and records exactly
one observation on the latency histogram labelled with the metric name (all
other label cells untouched). -/
theorem C1_sync_success (ε β : Type) (name : String) (lc : Bool) (dur : Nat)
    (v : β) (s : MonState) (m : Monitored)
    (hmon : monitor name lc = Except.ok m) :
    (wrapper m.metric_name m.log_calls dur (Except.ok v : Except ε β) s).1 = Except.ok v ∧
    (wrapper m.metric_name m.log_calls dur (Except.ok v : Except ε β) s).2.count
        m.metric_name "success"
      = s.count m.metric_name "success" + 1 ∧
    ((wrapper m.metric_name m.log_calls dur (Except.ok v : Except ε β) s).2.latency
        m.metric_name).length
      = (s.latency m.metric_name).length + 1 ∧
    (∀ n st : String, ¬(n = m.metric_name ∧ st = "success") →
      (wrapper m.metric_name m.log_calls dur (Except.ok v : Except ε β) s).2.count n st
        = s.count n st) ∧
    (∀ n : String, n ≠ m.metric_name →
      (wrapper m.metric_name m.log_calls dur (Except.ok v : Except ε β) s).2.latency n
        = s.latency n) ∧
    m.metric_name = name := by
  obtain rfl := monitor_ok_elim name lc m hmon
  refine ⟨rfl, ?_, ?_, ?_, ?_, rfl⟩
  · cases lc <;> simp [wrapper, observeLatency, incCount, addLog]
  · cases lc <;> simp [wrapper, observeLatency, incCount, addLog]
  · intro n st h
    simp only [Monitored.metric_name] at h
    cases lc <;> simp [wrapper, observeLatency, incCount, addLog, h]
  · intro n h
    simp only [Monitored.metric_name] at h
    cases lc <;> simp [wrapper, observeLatency, incCount, addLog, h]

/-- C1 witness: decorating with metric name payment_process and calling on
a function returning 42 yields 42, bumps the success counter from 0 to 1
and records one latency observation. -/
theorem C1_sync_success_witness :
    (wrapper "payment_process" true 0 (Except.ok 42 : Except Unit Nat) initMonState).1
      = Except.ok 42 ∧
    (wrapper "payment_process" true 0 (Except.ok 42 : Except Unit Nat) initMonState).2.count
        "payment_process" "success"
      = initMonState.count "payment_process" "success" + 1 ∧
    ((wrapper "payment_process" true 0 (Except.ok 42 : Except Unit Nat) initMonState).2.latency
        "payment_process").length
      = (initMonState.latency "payment_process").length + 1 :=
  have H := C1_sync_success Unit Nat "payment_process" true 0 42 initMonState
    ⟨"payment_process", true⟩ rfl
  ⟨H.1, H.2.1, H.2.2.1⟩

/-- C2: when the wrapped function raises, the monitor-decorated call
re-raises the same exception unchanged (sync and async wrapper alike),
increments the error counter labelled with the metric name by exactly 1,
and the `finally` path still records exactly one latency observation —
indeed the latency histogram gains exactly one observation on every exit
path (success, cancellation, or error) of both wrappers. -/
theorem C2_error_reraised (ε β : Type) (name : String) (lc : Bool) (dur : Nat)
    (e : ε) (s : MonState) (m : Monitored)
    (hmon : monitor name lc = Except.ok m) :
    (wrapper m.metric_name m.log_calls dur (Except.error e : Except ε β) s).1
      = Except.error e ∧
    (wrapper m.metric_name m.log_calls dur (Except.error e : Except ε β) s).2.count
        m.metric_name "error"
      = s.count m.metric_name "error" + 1 ∧
    (async_wrapper m.metric_name m.log_calls dur (CallResult.error e : CallResult ε β) s).1
      = CallResult.error e ∧
    (async_wrapper m.metric_name m.log_calls dur (CallResult.error e : CallResult ε β) s).2.count
        m.metric_name "error"
      = s.count m.metric_name "error" + 1 ∧
    (∀ fres : Except ε β,
      ((wrapper m.metric_name m.log_calls dur fres s).2.latency m.metric_name).length
        = (s.latency m.metric_name).length + 1) ∧
    (∀ fres : CallResult ε β,
      ((async_wrapper m.metric_name m.log_calls dur fres s).2.latency m.metric_name).length
        = (s.latency m.metric_name).length + 1) := by
  obtain rfl := monitor_ok_elim name lc m hmon
  refine ⟨rfl, ?_, rfl, ?_, ?_, ?_⟩
  · cases lc <;> simp [wrapper, observeLatency, incCount, addLog]
  · cases lc <;> simp [async_wrapper, observeLatency, incCount, addLog]
  · intro fres
    cases fres <;> cases lc <;> simp [wrapper, observeLatency, incCount, addLog]
  · intro fres
    cases fres <;> cases lc <;> simp [async_wrapper, observeLatency, incCount, addLog]

/-- C2 witness: an error outcome through the decorated call with metric
name payment_process is re-raised and counted once, with one latency
observation. -/
theorem C2_error_reraised_witness :
    (wrapper "payment_process" true 0 (Except.error () : Except Unit Nat) initMonState).1
      = Except.error () ∧
    (wrapper "payment_process" true 0 (Except.error () : Except Unit Nat) initMonState).2.count
        "payment_process" "error"
      = initMonState.count "payment_process" "error" + 1 ∧
    ((wrapper "payment_process" true 0 (Except.error () : Except Unit Nat) initMonState).2.latency
        "payment_process").length
      = (initMonState.latency "payment_process").length + 1 :=
  have H := C2_error_reraised Unit Nat "payment_process" true 0 () initMonState
    ⟨"payment_process", true⟩ rfl
  ⟨H.1, H.2.1, H.2.2.2.2.1 (Except.error ())⟩

/-- C9: an asynchronous decorated call that is cancelled while suspended
re-raises the cancellation unchanged, increments the counter with status
cancelled by 1, leaves the error counter untouched, and emits only
informational log lines — the "task cancelled" line at info level — so
cancellation is never swallowed nor classified as an error. -/
theorem C9_async_cancelled (ε β : Type) (name : String) (lc : Bool) (dur : Nat)
    (s : MonState) :
    (async_wrapper name lc dur (CallResult.cancelled : CallResult ε β) s).1
      = CallResult.cancelled ∧
    (async_wrapper name lc dur (CallResult.cancelled : CallResult ε β) s).2.count
        name "cancelled"
      = s.count name "cancelled" + 1 ∧
    (async_wrapper name lc dur (CallResult.cancelled : CallResult ε β) s).2.count
        name "error"
      = s.count name "error" ∧
    (async_wrapper name lc dur (CallResult.cancelled : CallResult ε β) s).2.logs
      = s.logs ++ (if lc then [(LogLevel.info, "started func execution")] else [])
          ++ [(LogLevel.info, "task cancelled")] := by
  refine ⟨rfl, ?_, ?_, ?_⟩
  · cases lc <;> simp [async_wrapper, observeLatency, incCount, addLog]
  · cases lc <;> simp [async_wrapper, observeLatency, incCount, addLog]
  · cases lc <;> simp [async_wrapper, observeLatency, incCount, addLog]

/-! ### C4: decoration-time validation -/

/-- C4: the claim states that every string failing the naming grammar
makes monitor raise InvalidName synchronously at decoration time.
Decoration does run validation before building any wrapper — a plainly
invalid name such as "123bad" fails immediately — but the code deviates on
grammar-violating names consisting of a valid body plus one trailing
newline: "ab\n" does not match the grammar body (it contains '\n'), yet
monitor accepts it and returns a decorated function instead of raising. -/
theorem C4_monitor_accepts_trailing_newline :
    monitor "ab\n" true = Except.ok ⟨"ab\n", true⟩ ∧
    coreNameMatch "ab\n".data = false ∧
    (monitor "123bad" true).isOk = false :=
  ⟨rfl, by decide, rfl⟩

/-! ### C7 and C8: logger provisioning -/

theorem consoleStep_has_console (st : LoggerState) :
    hasConsoleHandler (consoleStep st).handlers = true := by
  unfold consoleStep
  by_cases hc : hasConsoleHandler st.handlers = true
  · rw [if_pos hc]; exact hc
  · rw [if_neg hc]
    simp [hasConsoleHandler]

theorem consoleStep_count_file (st : LoggerState) :
    (consoleStep st).handlers.count Handler.file = st.handlers.count Handler.file := by
  unfold consoleStep
  split <;> simp [List.count_append]

theorem consoleStep_stderr (st : LoggerState) :
    (consoleStep st).stderr = st.stderr := by
  unfold consoleStep
  split <;> rfl

/-- C7: logger provisioning is a total function; when file output is
requested and the file-system operation fails (permission denied or any
OS error), the failure is absorbed rather than raised: exactly one
diagnostic line is appended to the process error stream, no file handler
is attached, and the returned logger still carries a console handler. -/
theorem C7_file_failure_degrades (lg : Logger) (fs : FsOutcome) (st : LoggerState)
    (hfs : fs ≠ FsOutcome.ok) (hfo : lg.file_output = true)
    (hnf : hasFileHandler st.handlers = false) :
    hasConsoleHandler (lg.setup fs st).handlers = true ∧
    (lg.setup fs st).handlers.count Handler.file = st.handlers.count Handler.file ∧
    (lg.setup fs st).stderr.length = st.stderr.length + 1 := by
  have hcond : (lg.file_output && !hasFileHandler st.handlers) = true := by
    rw [hfo, hnf]; rfl
  unfold Logger.setup Logger._setup_handlers
  rw [hcond]
  simp only [if_true]
  cases fs with
  | ok => exact absurd rfl hfs
  | permissionDenied =>
    refine ⟨?_, ?_, ?_⟩
    · simp [setPropagateFalse, Logger._setup_file_handler, consoleStep_has_console]
    · simp [setPropagateFalse, Logger._setup_file_handler, consoleStep_count_file]
    · simp [setPropagateFalse, Logger._setup_file_handler, consoleStep_stderr]
  | osError =>
    refine ⟨?_, ?_, ?_⟩
    · simp [setPropagateFalse, Logger._setup_file_handler, consoleStep_has_console]
    · simp [setPropagateFalse, Logger._setup_file_handler, consoleStep_count_file]
    · simp [setPropagateFalse, Logger._setup_file_handler, consoleStep_stderr]

/-- C7 witness: a logger with file output whose log-directory creation is
denied still comes back with a console handler, no file handler, and one
stderr diagnostic. -/
theorem C7_file_failure_degrades_witness :
    hasConsoleHandler
        (sampleLogger.setup FsOutcome.permissionDenied freshLoggerState).handlers = true ∧
    (sampleLogger.setup FsOutcome.permissionDenied freshLoggerState).handlers.count
        Handler.file = freshLoggerState.handlers.count Handler.file ∧
    (sampleLogger.setup FsOutcome.permissionDenied freshLoggerState).stderr.length
      = freshLoggerState.stderr.length + 1 :=
  C7_file_failure_degrades sampleLogger FsOutcome.permissionDenied freshLoggerState
    (by decide) rfl rfl

theorem consoleStep_count_console_le (st : LoggerState)
    (hc : st.handlers.count Handler.console ≤ 1) :
    (consoleStep st).handlers.count Handler.console ≤ 1 := by
  unfold consoleStep
  by_cases h : hasConsoleHandler st.handlers = true
  · rw [if_pos h]; exact hc
  · rw [if_neg h]
    have hmem : Handler.console ∉ st.handlers := by
      simpa [hasConsoleHandler] using h
    simp [List.count_append, List.count_eq_zero.mpr hmem]

theorem setup_counts_le (lg : Logger) (fs : FsOutcome) (st : LoggerState)
    (hc : st.handlers.count Handler.console ≤ 1)
    (hf : st.handlers.count Handler.file ≤ 1) :
    (lg.setup fs st).handlers.count Handler.console ≤ 1 ∧
    (lg.setup fs st).handlers.count Handler.file ≤ 1 := by
  have hcc := consoleStep_count_console_le st hc
  have hcf := consoleStep_count_file st
  unfold Logger.setup Logger._setup_handlers
  by_cases hcond : (lg.file_output && !hasFileHandler st.handlers) = true
  · rw [if_pos hcond]
    simp only [Bool.and_eq_true] at hcond
    have hnofile : (consoleStep st).handlers.count Handler.file = 0 := by
      rw [hcf]
      apply List.count_eq_zero.mpr
      intro hmem
      have hft : hasFileHandler st.handlers = true := by
        simp only [hasFileHandler]
        simpa using hmem
      rw [hft] at hcond
      simp at hcond
    cases fs with
    | ok =>
      constructor
      · simpa [setPropagateFalse, Logger._setup_file_handler, List.count_append]
          using hcc
      · simp [setPropagateFalse, Logger._setup_file_handler, List.count_append, hnofile]
    | permissionDenied =>
      constructor
      · simpa [setPropagateFalse, Logger._setup_file_handler] using hcc
      · simp [setPropagateFalse, Logger._setup_file_handler, hnofile]
    | osError =>
      constructor
      · simpa [setPropagateFalse, Logger._setup_file_handler] using hcc
      · simp [setPropagateFalse, Logger._setup_file_handler, hnofile]
  · rw [if_neg hcond]
    constructor
    · simpa [setPropagateFalse] using hcc
    · rw [setPropagateFalse]
      simpa [hcf] using hf

theorem foldl_setup_counts_le (calls : List (Logger × FsOutcome)) (st : LoggerState)
    (hc : st.handlers.count Handler.console ≤ 1)
    (hf : st.handlers.count Handler.file ≤ 1) :
    (calls.foldl (fun acc p => p.1.setup p.2 acc) st).handlers.count Handler.console ≤ 1 ∧
    (calls.foldl (fun acc p => p.1.setup p.2 acc) st).handlers.count Handler.file ≤ 1 := by
  induction calls generalizing st with
  | nil => exact ⟨hc, hf⟩
  | cons p ps ih =>
    simp only [List.foldl_cons]
    have h := setup_counts_le p.1 p.2 st hc hf
    exact ih _ h.1 h.2

theorem setup_noop (lg : Logger) (fs : FsOutcome) (st : LoggerState)
    (hc : hasConsoleHandler st.handlers = true)
    (hcond : (lg.file_output && !hasFileHandler st.handlers) = false)
    (hp : st.propagate = false) :
    lg.setup fs st = st := by
  unfold Logger.setup Logger._setup_handlers
  rw [hcond]
  simp only [Bool.false_eq_true, if_false]
  unfold consoleStep
  rw [if_pos hc]
  unfold setPropagateFalse
  cases st with
  | mk handlers propagate stderr =>
    simp only at hp
    simp [hp]

/-- C8: however many times provisioning runs for a logger name (the setup
lock serializes concurrent calls, so any interleaving is one of these
sequences), each handler kind is attached at most once: every sequence of
setup calls starting from a fresh logger leaves at most one console and at
most one file handler; and a setup call on an already fully configured
logger is a no-op returning the state unchanged. -/
theorem C8_handler_idempotence (calls : List (Logger × FsOutcome))
    (lg : Logger) (fs : FsOutcome) (st : LoggerState)
    (hc : hasConsoleHandler st.handlers = true)
    (hcond : (lg.file_output && !hasFileHandler st.handlers) = false)
    (hp : st.propagate = false) :
    ((calls.foldl (fun acc p => p.1.setup p.2 acc) freshLoggerState).handlers.count
        Handler.console ≤ 1 ∧
     (calls.foldl (fun acc p => p.1.setup p.2 acc) freshLoggerState).handlers.count
        Handler.file ≤ 1) ∧
    lg.setup fs st = st :=
  ⟨foldl_setup_counts_le calls freshLoggerState
      (by simp [freshLoggerState]) (by simp [freshLoggerState]),
   setup_noop lg fs st hc hcond hp⟩

/-- C8 witness: two consecutive file-enabled setups from a fresh logger
leave one handler of each kind, and a further setup on the configured
state returns it unchanged. -/
theorem C8_handler_idempotence_witness :
    (([(sampleLogger, FsOutcome.ok), (sampleLogger, FsOutcome.ok)].foldl
        (fun acc p => p.1.setup p.2 acc) freshLoggerState).handlers.count
        Handler.console ≤ 1 ∧
     ([(sampleLogger, FsOutcome.ok), (sampleLogger, FsOutcome.ok)].foldl
        (fun acc p => p.1.setup p.2 acc) freshLoggerState).handlers.count
        Handler.file ≤ 1) ∧
    sampleLogger.setup FsOutcome.ok configuredLoggerState = configuredLoggerState :=
  C8_handler_idempotence [(sampleLogger, FsOutcome.ok), (sampleLogger, FsOutcome.ok)]
    sampleLogger FsOutcome.ok configuredLoggerState (by decide) (by decide) rfl

/-! ### C10: NotiqConfig environment mutation -/

/-- C10: when the supplied configuration fails validation, NotiqConfig
raises (returns the error), but the three NOTIQ_* environment variables
have already been overwritten with the supplied values and keep them —
the failure is not atomic with respect to the process environment. -/
theorem C10_env_mutated_before_validation (validates : String → String → String → Bool)
    (BROKER_URL RESULT_BACKEND task_dir : String) (env : Env)
    (hinv : validates BROKER_URL RESULT_BACKEND task_dir = false) :
    (NotiqConfig validates BROKER_URL RESULT_BACKEND task_dir env).1.isOk = false ∧
    (NotiqConfig validates BROKER_URL RESULT_BACKEND task_dir env).2
      = ⟨some task_dir, some BROKER_URL, some RESULT_BACKEND⟩ := by
  simp [NotiqConfig, hinv, Except.isOk, Except.toBool]

/-- C10 witness: invalid URLs make NotiqConfig fail while the environment
keeps the rejected values. -/
theorem C10_env_mutated_before_validation_witness :
    (NotiqConfig (fun _ _ _ => false) "not-a-url" "also-bad" "./tasks"
        ⟨none, none, none⟩).1.isOk = false ∧
    (NotiqConfig (fun _ _ _ => false) "not-a-url" "also-bad" "./tasks"
        ⟨none, none, none⟩).2
      = ⟨some "./tasks", some "not-a-url", some "also-bad"⟩ :=
  C10_env_mutated_before_validation (fun _ _ _ => false) "not-a-url" "also-bad"
    "./tasks" ⟨none, none, none⟩ rfl

end Notiq
